import Mathlib

/-!
Verification of the Heal.io IoT health-monitoring band firmware
(`src/research&dl/code.cpp`).  The per-tick loop is shallowly embedded:
sensor reads, the millisecond clock and the random source become explicit
inputs to a pure step function; the SSD1306 display becomes an explicit
command list interpreted into a frame buffer of placed text and lines.
Acceleration magnitudes and thresholds are modelled over `ℚ` (the source
compares a `float` magnitude against the literals 11.0, 9.9, 9.7).
-/

namespace HealIO

/-- Arduino `random(lo, hi)`: an external collaborator returning an integer
in the inclusive-exclusive range [lo, hi).  Modelled as a pure function of
an oracle seed `r`, faithful to that contract. -/
def randomInRange (lo hi : Int) (r : Nat) : Int :=
  lo + ((r % (hi - lo).toNat : Nat) : Int)

/-- Lines 88-92: the activity classifier applied to the acceleration
magnitude `totalAccel`.
`if (totalAccel > 11.0) "Active" else if (totalAccel < 9.9 && totalAccel > 9.7)
"Resting" else "Moving"`. -/
def classifyMag (m : ℚ) : String :=
  if m > 11 then "Active"
  else if m < 99/10 ∧ m > 97/10 then "Resting"
  else "Moving"

/-- Lines 76-83: the heart-rate simulation stage.  Given the finger flag,
the current `millis()` reading `now`, the random oracle seed `r`, and the
stored `simulatedBPM`/`lastBPMUpdate` pair, it returns the updated pair.
`if (fingerDetected) { if (millis() - lastBPMUpdate > 2000) { lastBPMUpdate =
millis(); simulatedBPM = random(68, 85); } } else { simulatedBPM = 0; }`. -/
def simulateBPMStep (finger : Bool) (now : Nat) (r : Nat)
    (bpm : Int) (last : Nat) : Int × Nat :=
  if finger then
    if now - last > 2000 then (randomInRange 68 85 r, now)
    else (bpm, last)
  else (0, last)

/-- Lines 69-73: `fingerDetected = (digitalRead(FINGER_PIN) == HIGH)`,
written as an if/else in the source.  `level` is the raw digital read
(`HIGH` = 1); `prev` is the flag's value from the previous tick, which the
source overwrites unconditionally. -/
def detectFinger (level : Nat) (prev : Bool) : Bool :=
  if level = 1 then true else false

lemma randomInRange_68_85_mem (r : Nat) :
    68 ≤ randomInRange 68 85 r ∧ randomInRange 68 85 r < 85 := by
  unfold randomInRange
  have h : r % 17 < 17 := Nat.mod_lt _ (by norm_num)
  constructor
  · have : (0 : Int) ≤ ((r % 17 : Nat) : Int) := Int.ofNat_nonneg _
    norm_num
    omega
  · have : ((r % (17 : Nat) : Nat) : Int) < 17 := by exact_mod_cast h
    norm_num
    omega

example : simulateBPMStep true 2500 3 0 0 = (71, 2500) := by decide
example : simulateBPMStep true 2000 3 70 0 = (70, 0) := by decide
example : simulateBPMStep false 9999 3 70 50 = (0, 50) := by decide
example : classifyMag (98/10) = "Resting" := by norm_num [classifyMag]
example : classifyMag 10 = "Moving" := by norm_num [classifyMag]
example : classifyMag 12 = "Active" := by norm_num [classifyMag]

/-- An element of the rendered frame: a text placed at cursor position
(x, y) with a text size, or a line segment (`display.drawLine`). -/
inductive FrameElem where
  | text (x y size : Nat) (s : String)
  | line (x0 y0 x1 y1 : Nat)
  deriving DecidableEq, Repr

/-- The Adafruit display commands the sketch issues. -/
inductive Cmd where
  | clear
  | setCursor (x y : Nat)
  | setTextSize (n : Nat)
  | printStr (s : String)
  | printLine (s : String)
  | drawLine (x0 y0 x1 y1 : Nat)
  | commit
  deriving DecidableEq, Repr

/-- Display driver state: cursor, text size, and the frame buffer as the
list of placed elements.  `clearDisplay` empties the buffer but, as in
Adafruit_GFX, leaves cursor and text size untouched.  `print` places text
at the cursor and advances it by 6 pixels per character per size unit;
`println` additionally wraps the cursor to the next 8-pixel text row. -/
structure DState where
  cursorX : Nat
  cursorY : Nat
  textSize : Nat
  buffer : List FrameElem
  deriving DecidableEq, Repr

def execCmd (d : DState) : Cmd → DState
  | Cmd.clear => { d with buffer := [] }
  | Cmd.setCursor x y => { d with cursorX := x, cursorY := y }
  | Cmd.setTextSize n => { d with textSize := n }
  | Cmd.printStr s =>
      { d with buffer := d.buffer ++ [FrameElem.text d.cursorX d.cursorY d.textSize s],
               cursorX := d.cursorX + 6 * d.textSize * s.length }
  | Cmd.printLine s =>
      { d with buffer := d.buffer ++ [FrameElem.text d.cursorX d.cursorY d.textSize s],
               cursorX := 0,
               cursorY := d.cursorY + 8 * d.textSize }
  | Cmd.drawLine x0 y0 x1 y1 => { d with buffer := d.buffer ++ [FrameElem.line x0 y0 x1 y1] }
  | Cmd.commit => d

def execCmds (d : DState) (cs : List Cmd) : DState :=
  cs.foldl execCmd d

/-- Lines 97-127: the display-update stage as issued by `loop()`.  Clears,
draws the header and separator, then branches on `fingerDetected`: the
three labeled data fields, or the two-line warning. -/
def renderCmds (finger : Bool) (bpm : Int) (status : String) (ecg : Int) : List Cmd :=
  [Cmd.clear,
   Cmd.setCursor 0 0, Cmd.printLine "HEALTH MONITOR",
   Cmd.drawLine 0 10 128 10] ++
  (if finger then
    [Cmd.setCursor 0 15, Cmd.printStr "BPM: ", Cmd.printStr (toString bpm),
     Cmd.setCursor 0 27, Cmd.printStr "Status: ", Cmd.printStr status,
     Cmd.setCursor 0 39, Cmd.printStr "ECG: ", Cmd.printStr (toString ecg)]
  else
    [Cmd.setCursor 10 25, Cmd.setTextSize 1, Cmd.printLine "NO FINGER",
     Cmd.setCursor 10 35, Cmd.printLine "DETECTED"]) ++
  [Cmd.commit]

/-- The frame buffer produced by one display update from driver state `d`. -/
def frameOf (d : DState) (finger : Bool) (bpm : Int) (status : String) (ecg : Int) :
    List FrameElem :=
  (execCmds d (renderCmds finger bpm status ecg)).buffer

/-- Per-tick sensor and environment inputs to `loop()`: the raw digital
level of the finger pin, `millis()`, the random oracle seed, the
acceleration magnitude `sqrt(ax^2+ay^2+az^2)`, and `analogRead(ECG_PIN)`. -/
structure Input where
  fingerLevel : Nat
  now : Nat
  rand : Nat
  accelMag : ℚ
  ecg : Int

/-- The sketch's mutable state: the four globals of lines 30-33 plus the
display driver state. -/
structure BandState where
  simulatedBPM : Int
  lastBPMUpdate : Nat
  activityStatus : String
  fingerDetected : Bool
  disp : DState

/-- One full iteration of `loop()` (lines 67-129): finger detection, BPM
simulation, activity classification, and the display update. -/
def loopTick (inp : Input) (s : BandState) : BandState :=
  let fd := detectFinger inp.fingerLevel s.fingerDetected
  let bl := simulateBPMStep fd inp.now inp.rand s.simulatedBPM s.lastBPMUpdate
  let status := classifyMag inp.accelMag
  { simulatedBPM := bl.1, lastBPMUpdate := bl.2, activityStatus := status,
    fingerDetected := fd,
    disp := execCmds s.disp (renderCmds fd bl.1 status inp.ecg) }

/-- The display state right after `setup()` (lines 59-64): cleared, text
size 1, and "System Ready" printed at the origin. -/
def setupDisp : DState :=
  execCmds { cursorX := 0, cursorY := 0, textSize := 1, buffer := [] }
    [Cmd.clear, Cmd.setTextSize 1, Cmd.printLine "System Ready", Cmd.commit]

/-- The global state after `setup()`: the initializers of lines 30-33. -/
def initState : BandState :=
  { simulatedBPM := 0, lastBPMUpdate := 0, activityStatus := "Idle",
    fingerDetected := false, disp := setupDisp }

/-- States reachable by running `loop()` repeatedly from the initial
state, with arbitrary sensor inputs each tick. -/
inductive Reachable : BandState → Prop where
  | init : Reachable initState
  | step (inp : Input) (s : BandState) : Reachable s → Reachable (loopTick inp s)

/-- With text size 1 (the invariant established by `setup()`), the
no-finger frame is the header, the separator, and the two warning lines. -/
lemma frameOf_false (d : DState) (h : d.textSize = 1) (bpm ecg : Int) (status : String) :
    frameOf d false bpm status ecg =
      [FrameElem.text 0 0 1 "HEALTH MONITOR", FrameElem.line 0 10 128 10,
       FrameElem.text 10 25 1 "NO FINGER", FrameElem.text 10 35 1 "DETECTED"] := by
  simp [frameOf, renderCmds, execCmds, execCmd, h]

/-- With text size 1, the finger-present frame is the header, the
separator, and the three labeled data fields at their fixed positions. -/
lemma frameOf_true (d : DState) (h : d.textSize = 1) (bpm ecg : Int) (status : String) :
    frameOf d true bpm status ecg =
      [FrameElem.text 0 0 1 "HEALTH MONITOR", FrameElem.line 0 10 128 10,
       FrameElem.text 0 15 1 "BPM: ", FrameElem.text 30 15 1 (toString bpm),
       FrameElem.text 0 27 1 "Status: ", FrameElem.text 48 27 1 status,
       FrameElem.text 0 39 1 "ECG: ", FrameElem.text 30 39 1 (toString ecg)] := by
  simp [frameOf, renderCmds, execCmds, execCmd, h]
  exact ⟨rfl, rfl, rfl⟩

lemma classifyMag_eq_active_iff (m : ℚ) : classifyMag m = "Active" ↔ 11 < m := by
  unfold classifyMag
  split_ifs with hA hR <;> simp_all

lemma classifyMag_eq_resting_iff (m : ℚ) :
    classifyMag m = "Resting" ↔ 97/10 < m ∧ m < 99/10 := by
  unfold classifyMag
  split_ifs with hA hR
  · constructor
    · intro h; exact absurd h (by decide)
    · intro h; exfalso; linarith [h.2]
  · simp_all [And.comm]
  · constructor
    · intro h; exact absurd h (by decide)
    · intro h; exact absurd ⟨h.2, h.1⟩ hR

lemma classifyMag_eq_moving_iff (m : ℚ) :
    classifyMag m = "Moving" ↔ ¬(11 < m) ∧ ¬(97/10 < m ∧ m < 99/10) := by
  unfold classifyMag
  split_ifs with hA hR
  · constructor
    · intro h; exact absurd h (by decide)
    · intro h; exact absurd hA h.1
  · constructor
    · intro h; exact absurd h (by decide)
    · intro h; exact absurd ⟨hR.2, hR.1⟩ h.2
  · constructor
    · intro _; exact ⟨hA, fun h => hR ⟨h.2, h.1⟩⟩
    · intro _; rfl

/-- C1: for every acceleration sample with magnitude m, the classification
is Active iff m > 11.0, Resting iff 9.7 < m < 9.9, and Moving in every
other case — including the boundary values 9.7, 9.9, 11.0 and the whole
gap [9.9, 11.0] — with the thresholds tested in first-match-wins order
(the order of `classifyMag`'s if-chain). -/
theorem claim_C1_activity_thresholds :
    (∀ m : ℚ, (classifyMag m = "Active" ↔ m > 11) ∧
      (classifyMag m = "Resting" ↔ 97/10 < m ∧ m < 99/10) ∧
      (classifyMag m = "Moving" ↔ ¬(m > 11) ∧ ¬(97/10 < m ∧ m < 99/10))) ∧
    classifyMag (97/10) = "Moving" ∧ classifyMag (99/10) = "Moving" ∧
    classifyMag 11 = "Moving" ∧
    (∀ m : ℚ, 99/10 ≤ m → m ≤ 11 → classifyMag m = "Moving") := by
  refine ⟨fun m => ⟨classifyMag_eq_active_iff m, classifyMag_eq_resting_iff m,
    classifyMag_eq_moving_iff m⟩, ?_, ?_, ?_, fun m h1 h2 => ?_⟩
  · exact (classifyMag_eq_moving_iff _).2 (by norm_num)
  · exact (classifyMag_eq_moving_iff _).2 (by norm_num)
  · exact (classifyMag_eq_moving_iff _).2 (by norm_num)
  · exact (classifyMag_eq_moving_iff m).2 ⟨by linarith, fun h => by linarith [h.2]⟩

/-- C1 witness: the gap conjunct instantiated at m = 10. -/
theorem claim_C1_activity_thresholds_witness :
    (99/10 : ℚ) ≤ 10 ∧ (10 : ℚ) ≤ 11 ∧ classifyMag 10 = "Moving" :=
  ⟨by norm_num, by norm_num,
    claim_C1_activity_thresholds.2.2.2.2 10 (by norm_num) (by norm_num)⟩

/-- C2: on every tick where the finger is not detected, `simulatedBPM` is
exactly 0 at the end of that tick, regardless of any prior state. -/
theorem claim_C2_no_presence_zero_bpm (inp : Input) (s : BandState)
    (h : (loopTick inp s).fingerDetected = false) :
    (loopTick inp s).simulatedBPM = 0 := by
  simp only [loopTick] at h ⊢
  rw [h]
  simp [simulateBPMStep]

/-- C2 witness: a tick with the finger pin reading LOW (level 0). -/
theorem claim_C2_no_presence_zero_bpm_witness :
    (loopTick ⟨0, 5000, 3, 10, 512⟩ initState).fingerDetected = false ∧
    (loopTick ⟨0, 5000, 3, 10, 512⟩ initState).simulatedBPM = 0 :=
  ⟨rfl, claim_C2_no_presence_zero_bpm ⟨0, 5000, 3, 10, 512⟩ initState rfl⟩

/-- C3 counterexample: with exactly 2000ms elapsed (now = 2000, stored
timestamp 0, finger present, stored value 70, seed 3), the claim's premise
`now - lastUpdateTimestamp >= 2000` holds, yet the tick neither replaces
the value with the fresh draw nor updates the timestamp: the source guard
is the strict `millis() - lastBPMUpdate > 2000`. -/
theorem claim_C3_counterexample :
    2000 - 0 ≥ 2000 ∧
    simulateBPMStep true 2000 3 70 0 = (70, 0) ∧
    (70, (0 : Nat)) ≠ (randomInRange 68 85 3, (2000 : Nat)) := by
  refine ⟨by decide, by decide, by decide⟩

/-- C3 (amended): for every tick where presence is true and STRICTLY MORE
than 2000ms have elapsed (now - lastUpdateTimestamp > 2000, with the
stored timestamp not in the future), the value is replaced by a fresh draw
from the inclusive-exclusive range [68, 85), and the internal timestamp is
updated to the current time. -/
theorem claim_C3_regen_after_2000ms (bpm : Int) (last now r : Nat)
    (h0 : last ≤ now) (h : now - last > 2000) :
    simulateBPMStep true now r bpm last = (randomInRange 68 85 r, now) ∧
    68 ≤ randomInRange 68 85 r ∧ randomInRange 68 85 r < 85 := by
  refine ⟨?_, randomInRange_68_85_mem r⟩
  simp only [simulateBPMStep, if_true]
  rw [if_pos h]

/-- C3 witness: regeneration at now = 2500, stored timestamp 0, seed 3. -/
theorem claim_C3_regen_witness :
    (0 : Nat) ≤ 2500 ∧ 2500 - 0 > 2000 ∧
    (simulateBPMStep true 2500 3 0 0 = (randomInRange 68 85 3, 2500) ∧
     68 ≤ randomInRange 68 85 3 ∧ randomInRange 68 85 3 < 85) :=
  ⟨by decide, by decide, claim_C3_regen_after_2000ms 0 0 2500 3 (by decide) (by decide)⟩

/-- C4: for every tick where presence is true and fewer than 2000ms have
elapsed since the last regeneration, both the value and the internal
timestamp are unchanged by that tick. -/
theorem claim_C4_retain_within_2000ms (bpm : Int) (last now r : Nat)
    (h0 : last ≤ now) (h : now - last < 2000) :
    simulateBPMStep true now r bpm last = (bpm, last) := by
  simp only [simulateBPMStep, if_true]
  rw [if_neg (by omega)]

/-- C4 witness: retention at now = 1000, stored timestamp 0. -/
theorem claim_C4_retain_witness :
    (0 : Nat) ≤ 1000 ∧ 1000 - 0 < 2000 ∧
    simulateBPMStep true 1000 3 70 0 = (70, 0) :=
  ⟨by decide, by decide, claim_C4_retain_within_2000ms 70 0 1000 3 (by decide) (by decide)⟩

/-- C5: on every tick with presence false the internal timestamp is left
unchanged (only the value is forced to 0); consequently, on a later tick
where presence has returned, the elapsed-time check runs against the stale
timestamp, so a regeneration occurs immediately on that tick whenever the
current time minus the stale timestamp exceeds 2000ms. -/
theorem claim_C5_stale_timestamp (bpm : Int) (last now r now' r' : Nat) :
    (simulateBPMStep false now r bpm last).2 = last ∧
    (simulateBPMStep false now r bpm last).1 = 0 ∧
    (last ≤ now' → now' - last > 2000 →
      simulateBPMStep true now' r'
          (simulateBPMStep false now r bpm last).1
          (simulateBPMStep false now r bpm last).2
        = (randomInRange 68 85 r', now')) := by
  refine ⟨rfl, rfl, fun h0 h => ?_⟩
  simp only [simulateBPMStep, if_true, Bool.false_eq_true, if_false]
  rw [if_pos h]

/-- C5 witness: presence lost at now = 1500 (timestamp 1000 kept), then a
regeneration on the first presence tick at now = 4000. -/
theorem claim_C5_stale_timestamp_witness :
    (simulateBPMStep false 1500 3 70 1000).2 = 1000 ∧
    (simulateBPMStep false 1500 3 70 1000).1 = 0 ∧
    simulateBPMStep true 4000 7
        (simulateBPMStep false 1500 3 70 1000).1
        (simulateBPMStep false 1500 3 70 1000).2
      = (randomInRange 68 85 7, 4000) :=
  ⟨(claim_C5_stale_timestamp 70 1000 1500 3 4000 7).1,
   (claim_C5_stale_timestamp 70 1000 1500 3 4000 7).2.1,
   (claim_C5_stale_timestamp 70 1000 1500 3 4000 7).2.2 (by decide) (by decide)⟩

/-- C6: with text size 1 (setup's invariant), every frame contains the
fixed header and the separator line, and then branches solely on
presence: with no finger, the two-line warning and none of the three data
field labels; with a finger, the three labeled fields at their fixed
positions and no warning. -/
theorem claim_C6_frame_layout (d : DState) (h : d.textSize = 1) (finger : Bool)
    (bpm ecg : Int) (status : String) :
    (FrameElem.text 0 0 1 "HEALTH MONITOR" ∈ frameOf d finger bpm status ecg ∧
     FrameElem.line 0 10 128 10 ∈ frameOf d finger bpm status ecg) ∧
    (finger = false →
      FrameElem.text 10 25 1 "NO FINGER" ∈ frameOf d finger bpm status ecg ∧
      FrameElem.text 10 35 1 "DETECTED" ∈ frameOf d finger bpm status ecg ∧
      FrameElem.text 0 15 1 "BPM: " ∉ frameOf d finger bpm status ecg ∧
      FrameElem.text 0 27 1 "Status: " ∉ frameOf d finger bpm status ecg ∧
      FrameElem.text 0 39 1 "ECG: " ∉ frameOf d finger bpm status ecg) ∧
    (finger = true →
      FrameElem.text 0 15 1 "BPM: " ∈ frameOf d finger bpm status ecg ∧
      FrameElem.text 30 15 1 (toString bpm) ∈ frameOf d finger bpm status ecg ∧
      FrameElem.text 0 27 1 "Status: " ∈ frameOf d finger bpm status ecg ∧
      FrameElem.text 48 27 1 status ∈ frameOf d finger bpm status ecg ∧
      FrameElem.text 0 39 1 "ECG: " ∈ frameOf d finger bpm status ecg ∧
      FrameElem.text 30 39 1 (toString ecg) ∈ frameOf d finger bpm status ecg ∧
      FrameElem.text 10 25 1 "NO FINGER" ∉ frameOf d finger bpm status ecg ∧
      FrameElem.text 10 35 1 "DETECTED" ∉ frameOf d finger bpm status ecg) := by
  cases finger
  · rw [frameOf_false d h]
    refine ⟨⟨by simp, by simp⟩, fun _ => ?_, fun hc => absurd hc (by decide)⟩
    refine ⟨by simp, by simp, ?_, ?_, ?_⟩ <;> simp
  · rw [frameOf_true d h]
    refine ⟨⟨by simp, by simp⟩, fun hc => absurd hc (by decide), fun _ => ?_⟩
    refine ⟨by simp, by simp, by simp, by simp, by simp, by simp, ?_, ?_⟩ <;> simp

/-- C6 witness: the finger-present frame at bpm 70, status "Resting",
ecg 512, from a fresh display state. -/
theorem claim_C6_frame_layout_witness :
    (⟨0, 0, 1, []⟩ : DState).textSize = 1 ∧
    ((FrameElem.text 0 0 1 "HEALTH MONITOR" ∈ frameOf ⟨0, 0, 1, []⟩ true 70 "Resting" 512 ∧
      FrameElem.line 0 10 128 10 ∈ frameOf ⟨0, 0, 1, []⟩ true 70 "Resting" 512) ∧
     (true = false →
       FrameElem.text 10 25 1 "NO FINGER" ∈ frameOf ⟨0, 0, 1, []⟩ true 70 "Resting" 512 ∧
       FrameElem.text 10 35 1 "DETECTED" ∈ frameOf ⟨0, 0, 1, []⟩ true 70 "Resting" 512 ∧
       FrameElem.text 0 15 1 "BPM: " ∉ frameOf ⟨0, 0, 1, []⟩ true 70 "Resting" 512 ∧
       FrameElem.text 0 27 1 "Status: " ∉ frameOf ⟨0, 0, 1, []⟩ true 70 "Resting" 512 ∧
       FrameElem.text 0 39 1 "ECG: " ∉ frameOf ⟨0, 0, 1, []⟩ true 70 "Resting" 512) ∧
     (true = true →
       FrameElem.text 0 15 1 "BPM: " ∈ frameOf ⟨0, 0, 1, []⟩ true 70 "Resting" 512 ∧
       FrameElem.text 30 15 1 (toString (70 : Int)) ∈ frameOf ⟨0, 0, 1, []⟩ true 70 "Resting" 512 ∧
       FrameElem.text 0 27 1 "Status: " ∈ frameOf ⟨0, 0, 1, []⟩ true 70 "Resting" 512 ∧
       FrameElem.text 48 27 1 "Resting" ∈ frameOf ⟨0, 0, 1, []⟩ true 70 "Resting" 512 ∧
       FrameElem.text 0 39 1 "ECG: " ∈ frameOf ⟨0, 0, 1, []⟩ true 70 "Resting" 512 ∧
       FrameElem.text 30 39 1 (toString (512 : Int)) ∈ frameOf ⟨0, 0, 1, []⟩ true 70 "Resting" 512 ∧
       FrameElem.text 10 25 1 "NO FINGER" ∉ frameOf ⟨0, 0, 1, []⟩ true 70 "Resting" 512 ∧
       FrameElem.text 10 35 1 "DETECTED" ∉ frameOf ⟨0, 0, 1, []⟩ true 70 "Resting" 512)) :=
  ⟨rfl, claim_C6_frame_layout ⟨0, 0, 1, []⟩ rfl true 70 512 "Resting"⟩

/-- C7: presence detection is pure and stateless with no debounce — the
flag computed on a tick equals exactly the raw digital level read on that
tick (true iff the pin reads HIGH, i.e. level 1), independent of the
flag's previous value. -/
theorem claim_C7_presence_stateless (level : Nat) (prev prev' : Bool) :
    detectFinger level prev = detectFinger level prev' ∧
    (detectFinger level prev = true ↔ level = 1) := by
  unfold detectFinger
  refine ⟨rfl, ?_⟩
  split_ifs with hl <;> simp [hl]

/-- C8: rendering is deterministic and retains no layout state — for any
two ticks whose inputs (presence, vital value, activity label, raw signal
value) are equal, the composed frame content is identical, whatever the
prior display state (with the text size at its invariant value 1), since
the buffer is fully cleared and redrawn. -/
theorem claim_C8_render_deterministic (d₁ d₂ : DState)
    (h₁ : d₁.textSize = 1) (h₂ : d₂.textSize = 1)
    (f₁ f₂ : Bool) (b₁ b₂ e₁ e₂ : Int) (s₁ s₂ : String)
    (hf : f₁ = f₂) (hb : b₁ = b₂) (hs : s₁ = s₂) (he : e₁ = e₂) :
    frameOf d₁ f₁ b₁ s₁ e₁ = frameOf d₂ f₂ b₂ s₂ e₂ := by
  subst hf; subst hb; subst hs; subst he
  cases f₁
  · rw [frameOf_false d₁ h₁, frameOf_false d₂ h₂]
  · rw [frameOf_true d₁ h₁, frameOf_true d₂ h₂]

/-- C8 witness: two display states with different cursors and buffers
produce the same frame for the same inputs. -/
theorem claim_C8_render_deterministic_witness :
    (⟨3, 7, 1, [FrameElem.line 1 2 3 4]⟩ : DState).textSize = 1 ∧
    (⟨0, 0, 1, []⟩ : DState).textSize = 1 ∧
    frameOf ⟨3, 7, 1, [FrameElem.line 1 2 3 4]⟩ true 70 "Moving" 512 =
      frameOf ⟨0, 0, 1, []⟩ true 70 "Moving" 512 :=
  ⟨rfl, rfl, claim_C8_render_deterministic ⟨3, 7, 1, [FrameElem.line 1 2 3 4]⟩ ⟨0, 0, 1, []⟩
    rfl rfl true true 70 70 512 512 "Moving" "Moving" rfl rfl rfl rfl⟩

lemma simulateBPMStep_fst_cases (finger : Bool) (now r : Nat) (bpm : Int) (last : Nat) :
    (simulateBPMStep finger now r bpm last).1 = 0 ∨
    (68 ≤ (simulateBPMStep finger now r bpm last).1 ∧
      (simulateBPMStep finger now r bpm last).1 < 85) ∨
    (simulateBPMStep finger now r bpm last).1 = bpm := by
  unfold simulateBPMStep
  split_ifs with hf hr
  · right; left; exact randomInRange_68_85_mem r
  · right; right; rfl
  · left; rfl

/-- C9: in every reachable state of the loop, the stored vital-sign value
is either 0 or an integer in [68, 85): it starts at 0, is only ever
overwritten by a draw from [68, 85), or reset to 0. -/
theorem claim_C9_bpm_range_invariant (s : BandState) (hs : Reachable s) :
    s.simulatedBPM = 0 ∨ (68 ≤ s.simulatedBPM ∧ s.simulatedBPM < 85) := by
  induction hs with
  | init => left; rfl
  | step inp s' _ ih =>
      have hbpm : (loopTick inp s').simulatedBPM =
          (simulateBPMStep (detectFinger inp.fingerLevel s'.fingerDetected)
            inp.now inp.rand s'.simulatedBPM s'.lastBPMUpdate).1 := rfl
      rw [hbpm]
      rcases simulateBPMStep_fst_cases (detectFinger inp.fingerLevel s'.fingerDetected)
          inp.now inp.rand s'.simulatedBPM s'.lastBPMUpdate with hc | hc | hc
      · left; exact hc
      · right; exact hc
      · rw [hc]; exact ih

/-- C9 witness: the invariant at the initial state. -/
theorem claim_C9_bpm_range_invariant_witness :
    initState.simulatedBPM = 0 ∨ (68 ≤ initState.simulatedBPM ∧ initState.simulatedBPM < 85) :=
  claim_C9_bpm_range_invariant initState Reachable.init

lemma classifyMag_mem_labels (m : ℚ) :
    (classifyMag m = "Active" ∨ classifyMag m = "Resting" ∨ classifyMag m = "Moving") ∧
    classifyMag m ≠ "Idle" := by
  unfold classifyMag
  split_ifs <;> exact ⟨by simp, by decide⟩

/-- C10: the activity label shown in any rendered frame (the text at the
status field position (48, 27)) is always one of exactly "Active",
"Resting" or "Moving", and never the initializer "Idle": classification
runs unconditionally on every tick before rendering. -/
theorem claim_C10_activity_label_displayed (inp : Input) (s : BandState)
    (h : s.disp.textSize = 1) (lbl : String)
    (hm : FrameElem.text 48 27 1 lbl ∈ (loopTick inp s).disp.buffer) :
    (lbl = "Active" ∨ lbl = "Resting" ∨ lbl = "Moving") ∧ lbl ≠ "Idle" := by
  have hb : (loopTick inp s).disp.buffer =
      frameOf s.disp (detectFinger inp.fingerLevel s.fingerDetected)
        (simulateBPMStep (detectFinger inp.fingerLevel s.fingerDetected)
          inp.now inp.rand s.simulatedBPM s.lastBPMUpdate).1
        (classifyMag inp.accelMag) inp.ecg := rfl
  rw [hb] at hm
  cases hf : detectFinger inp.fingerLevel s.fingerDetected
  · rw [hf, frameOf_false s.disp h] at hm
    simp at hm
  · rw [hf, frameOf_true s.disp h] at hm
    simp at hm
    subst hm
    exact classifyMag_mem_labels inp.accelMag

/-- C10 witness: a presence tick with magnitude 12 renders the label
"Active" at the status position. -/
theorem claim_C10_activity_label_displayed_witness :
    initState.disp.textSize = 1 ∧
    (("Active" = "Active" ∨ "Active" = "Resting" ∨ "Active" = "Moving") ∧ "Active" ≠ "Idle") :=
  ⟨rfl, claim_C10_activity_label_displayed ⟨1, 5000, 3, 12, 512⟩ initState rfl "Active" (by
    have hb : (loopTick ⟨1, 5000, 3, 12, 512⟩ initState).disp.buffer =
        frameOf setupDisp true (randomInRange 68 85 3) (classifyMag 12) 512 := rfl
    have hA : classifyMag 12 = "Active" := by norm_num [classifyMag]
    rw [hb, frameOf_true setupDisp rfl, hA]
    simp)⟩

end HealIO
